import Mathlib

/-!
Shallow embedding of the glide desktop-shell library.

The embedding covers the two source files of the repository:

* `glide.go` — the `App` controller: window-style operations built on raw
  Win32 style-bit manipulation (`RemoveBorders`, `RestoreBorders`,
  `SetTransparency`, `SetBackgroundTransparent`, `SetPosition`, `Maximize`,
  `Minimize`, `Restore`, `ShowWindow`, `Navigate`), the metrics queries
  (`GetScreenSize`, `GetVirtualScreenInfo`), and the lifecycle
  (`Run`, `Terminate`).
* the tray manager file — `trayManager` with its pending-item queue,
  readiness channel, `onReady` / `AddMenuItem` / `addMenuItem` / `onExit`.

Machine integers: Go `uintptr` style words are modelled as `Nat`; the style
operations only clear and set bits inside a 32-bit mask, so no wrap-around
arises.  Native Win32 calls are recorded as explicit trace elements
(`NativeCall`) together with the execution context (`inline` on the calling
thread, or `dispatched` onto the window-owning thread via
`webview.Dispatch`), and their effect on the native window state is given by
the interpreter `applyCall`.
-/

/-- Go's bit-clear operator `a &^ b` (AND NOT).  For natural numbers,
`a &^ b = a XOR (a AND b)`: the bits of `a` that are also set in `b` are
removed. -/
def andNot (a b : Nat) : Nat := a ^^^ (a &&& b)

-- Window constants, glide.go lines 42–84.
def SW_HIDE : Nat := 0
def SW_SHOW : Nat := 5
def SW_MINIMIZE : Nat := 6
def SW_MAXIMIZE : Nat := 3
def SW_RESTORE : Nat := 9

def WS_CAPTION : Nat := 0x00C00000
def WS_THICKFRAME : Nat := 0x00040000
def WS_MINIMIZEBOX : Nat := 0x00020000
def WS_MAXIMIZEBOX : Nat := 0x00010000
def WS_SYSMENU : Nat := 0x00080000
def WS_BORDER : Nat := 0x00800000

def SWP_NOSIZE : Nat := 0x0001
def SWP_NOZORDER : Nat := 0x0004

def SM_CXSCREEN : Nat := 0
def SM_CYSCREEN : Nat := 1
def SM_CXVIRTUALSCREEN : Nat := 78
def SM_CYVIRTUALSCREEN : Nat := 79
def SM_XVIRTUALSCREEN : Nat := 76
def SM_YVIRTUALSCREEN : Nat := 77

def WS_EX_LAYERED : Nat := 0x00080000
def LWA_ALPHA : Nat := 0x00000002
def WS_EX_TRANSPARENT : Nat := 0x00000020
def WS_EX_COMPOSITED : Nat := 0x02000000

/-- glide.go `gwlStyle()` (line 87): the GWL_STYLE index, -16. -/
def gwlStyle : Int := -16

/-- glide.go `gwlExStyle()` (line 91): the GWL_EXSTYLE index, -20. -/
def gwlExStyle : Int := -20

/-- glide.go line 178 (local constant inside SetBackgroundTransparent). -/
def GWL_HBRBACKGROUND : Int := -10

/-- Native window state visible to the style operations: the GWL_STYLE and
GWL_EXSTYLE words and the layered-window alpha attribute (`none` until
`SetLayeredWindowAttributes` has been called with `LWA_ALPHA`). -/
structure Win where
  style : Nat
  exStyle : Nat
  alpha : Option Nat
  deriving DecidableEq, Repr

/-- The `App` controller as seen by the window operations: only the presence
or absence of the rendering surface (`a.webview == nil`) matters to them. -/
structure App where
  webview : Option Unit
  deriving DecidableEq, Repr

def appNone : App := { webview := none }

def appSome : App := { webview := some () }

/-- One raw Win32 call issued by an operation. -/
inductive NativeCall where
  | getWindowLong (idx : Int)
  | setWindowLong (idx : Int) (val : Nat)
  | setLayeredWindowAttributes (crKey alphaVal flags : Nat)
  | showWindowCmd (cmd : Nat)
  | showWindowAsyncCmd (cmd : Nat)
  | setWindowPosCall (x y : Int) (flags : Nat)
  | getSystemMetricsCall (idx : Nat)
  | updateWindowCall
  | navigateCall (url : String)
  deriving DecidableEq, Repr

/-- Where a native call executes: directly on the caller's thread, or inside
a task queued through `webview.Dispatch` onto the window-owning thread. -/
inductive ExecCtx where
  | inline
  | dispatched
  deriving DecidableEq, Repr

/-- Result of one `App` window operation: the native calls it issues (with
their execution context, in program order), whether it wrote a log line, and
the error value it returns (`none` for the `void`/`nil` results). -/
structure OpResult where
  calls : List (NativeCall × ExecCtx)
  logged : Bool
  err : Option String
  deriving DecidableEq, Repr

/-- Semantics of one native call on the window state.  `SetWindowLong` with
index GWL_STYLE / GWL_EXSTYLE replaces the corresponding word;
`SetLayeredWindowAttributes` stores the alpha attribute (the source always
passes exactly the `LWA_ALPHA` flag); the remaining calls (show, position,
metrics, navigate, update) do not change the style state. -/
def applyCall (w : Win) (c : NativeCall) : Win :=
  match c with
  | .setWindowLong idx v =>
      if idx = gwlStyle then { w with style := v }
      else if idx = gwlExStyle then { w with exStyle := v }
      else w
  | .setLayeredWindowAttributes _ a flags =>
      if flags = LWA_ALPHA then { w with alpha := some a } else w
  | _ => w

/-- Run all native calls of an operation, in program order, against the
window state. -/
def runOp (w : Win) (r : OpResult) : Win :=
  (r.calls.map Prod.fst).foldl applyCall w

/-- glide.go `SetTransparency` (lines 112–143).  With a nil webview it logs
and returns; otherwise the read–modify–write of GWL_EXSTYLE and the
`SetLayeredWindowAttributes` call all run inside one dispatched task (the
read result used below is the ex-style at the time the task executes, which
is the pre-state of this operation when tasks run in submission order). -/
def App.SetTransparency (a : App) (alphaVal : Nat) (w : Win) : OpResult :=
  match a.webview with
  | none => { calls := [], logged := true, err := none }
  | some _ =>
      let exStyle := w.exStyle
      let newExStyle := exStyle ||| WS_EX_LAYERED
      { calls := [(.getWindowLong gwlExStyle, .dispatched),
                  (.setWindowLong gwlExStyle newExStyle, .dispatched),
                  (.setLayeredWindowAttributes 0 alphaVal LWA_ALPHA, .dispatched)],
        logged := false, err := none }

/-- glide.go `SetBackgroundTransparent` (lines 147–197).  With a nil webview
it returns an error (and writes no log line); otherwise everything runs in
one dispatched task.  Note the read of the current ex-style whose result the
source discards: the written ex-style is the fixed constant
`WS_EX_LAYERED | WS_EX_TRANSPARENT | WS_EX_COMPOSITED`. -/
def App.SetBackgroundTransparent (a : App) (_w : Win) : OpResult :=
  match a.webview with
  | none => { calls := [], logged := false,
              err := some "Webview not initialized, cannot set transparent background" }
  | some _ =>
      let newExStyle := WS_EX_LAYERED ||| WS_EX_TRANSPARENT ||| WS_EX_COMPOSITED
      { calls := [(.getWindowLong gwlExStyle, .dispatched),
                  (.setWindowLong gwlExStyle newExStyle, .dispatched),
                  (.setLayeredWindowAttributes 0 0 LWA_ALPHA, .dispatched),
                  (.setWindowLong GWL_HBRBACKGROUND 0, .dispatched),
                  (.showWindowCmd SW_SHOW, .dispatched),
                  (.updateWindowCall, .dispatched)],
        logged := false, err := none }

/-- glide.go `SetPosition` (lines 241–262): logs and returns on a nil
webview; otherwise one dispatched `SetWindowPos` call. -/
def App.SetPosition (a : App) (x y : Int) : OpResult :=
  match a.webview with
  | none => { calls := [], logged := true, err := none }
  | some _ =>
      { calls := [(.setWindowPosCall x y (SWP_NOSIZE ||| SWP_NOZORDER), .dispatched)],
        logged := false, err := none }

/-- The style bits cleared by `RemoveBorders` and set by `RestoreBorders`
(glide.go lines 278 and 311). -/
def borderStyleBits : Nat :=
  WS_CAPTION ||| WS_THICKFRAME ||| WS_MINIMIZEBOX ||| WS_MAXIMIZEBOX ||| WS_SYSMENU ||| WS_BORDER

/-- glide.go `RemoveBorders` (lines 264–294).  With a nil webview it returns
silently (no log).  Otherwise: the GWL_STYLE read AND the GWL_STYLE write are
issued inline on the caller's thread; only the redraw (`ShowWindow`) is
queued through `Dispatch`. -/
def App.RemoveBorders (a : App) (w : Win) : OpResult :=
  match a.webview with
  | none => { calls := [], logged := false, err := none }
  | some _ =>
      let style := w.style
      let newStyle := andNot style borderStyleBits
      { calls := [(.getWindowLong gwlStyle, .inline),
                  (.setWindowLong gwlStyle newStyle, .inline),
                  (.showWindowCmd SW_SHOW, .dispatched)],
        logged := false, err := none }

/-- glide.go `RestoreBorders` (lines 297–327).  Same shape as
`RemoveBorders`, but the border style bits are OR-ed in. -/
def App.RestoreBorders (a : App) (w : Win) : OpResult :=
  match a.webview with
  | none => { calls := [], logged := false, err := none }
  | some _ =>
      let style := w.style
      let newStyle := style ||| borderStyleBits
      { calls := [(.getWindowLong gwlStyle, .inline),
                  (.setWindowLong gwlStyle newStyle, .inline),
                  (.showWindowCmd SW_SHOW, .dispatched)],
        logged := false, err := none }

/-- glide.go `Maximize` (lines 340–345): silent no-op on a nil webview,
otherwise one inline `ShowWindowAsync` call. -/
def App.Maximize (a : App) : OpResult :=
  match a.webview with
  | none => { calls := [], logged := false, err := none }
  | some _ => { calls := [(.showWindowAsyncCmd SW_MAXIMIZE, .inline)], logged := false, err := none }

/-- glide.go `Minimize` (lines 348–353). -/
def App.Minimize (a : App) : OpResult :=
  match a.webview with
  | none => { calls := [], logged := false, err := none }
  | some _ => { calls := [(.showWindowAsyncCmd SW_MINIMIZE, .inline)], logged := false, err := none }

/-- glide.go `Restore` (lines 356–361). -/
def App.Restore (a : App) : OpResult :=
  match a.webview with
  | none => { calls := [], logged := false, err := none }
  | some _ => { calls := [(.showWindowAsyncCmd SW_RESTORE, .inline)], logged := false, err := none }

/-- glide.go `ShowWindow` (lines 363–367), via `myShowWindow`: silent no-op
on a nil webview, otherwise one inline `ShowWindow(SW_SHOW)` call. -/
def App.ShowWindow (a : App) : OpResult :=
  match a.webview with
  | none => { calls := [], logged := false, err := none }
  | some _ => { calls := [(.showWindowCmd SW_SHOW, .inline)], logged := false, err := none }

/-- glide.go `Navigate` (lines 429–437): logs and returns on a nil webview;
otherwise the navigation runs in a dispatched task. -/
def App.Navigate (a : App) (url : String) : OpResult :=
  match a.webview with
  | none => { calls := [], logged := true, err := none }
  | some _ => { calls := [(.navigateCall url, .dispatched)], logged := false, err := none }

structure ScreenSize where
  Width : Int
  Height : Int
  deriving DecidableEq, Repr

structure VirtualScreenInfo where
  Width : Int
  Height : Int
  X : Int
  Y : Int
  deriving DecidableEq, Repr

/-- glide.go `GetScreenSize` (lines 214–222).  `metrics` is the
`GetSystemMetrics` oracle.  The receiver is never inspected: there is no
nil-webview guard. -/
def App.GetScreenSize (_a : App) (metrics : Nat → Int) :
    ScreenSize × List (NativeCall × ExecCtx) :=
  ({ Width := metrics SM_CXSCREEN, Height := metrics SM_CYSCREEN },
   [(.getSystemMetricsCall SM_CXSCREEN, .inline),
    (.getSystemMetricsCall SM_CYSCREEN, .inline)])

/-- glide.go `GetVirtualScreenInfo` (lines 226–238).  No nil-webview guard. -/
def App.GetVirtualScreenInfo (_a : App) (metrics : Nat → Int) :
    VirtualScreenInfo × List (NativeCall × ExecCtx) :=
  ({ Width := metrics SM_CXVIRTUALSCREEN, Height := metrics SM_CYVIRTUALSCREEN,
     X := metrics SM_XVIRTUALSCREEN, Y := metrics SM_YVIRTUALSCREEN },
   [(.getSystemMetricsCall SM_CXVIRTUALSCREEN, .inline),
    (.getSystemMetricsCall SM_CYVIRTUALSCREEN, .inline),
    (.getSystemMetricsCall SM_XVIRTUALSCREEN, .inline),
    (.getSystemMetricsCall SM_YVIRTUALSCREEN, .inline)])

/-- `RemoveBorders` followed by `RestoreBorders`, with the native window
state threaded through: the second operation's inline style read sees the
state left by the first. -/
def removeThenRestore (a : App) (w : Win) : Win :=
  let w1 := runOp w (a.RemoveBorders w)
  runOp w1 (a.RestoreBorders w1)

/-- Two successive `SetTransparency` calls; the dispatch queue executes
tasks in submission order, so the second task's ex-style read sees the state
left by the first. -/
def setTransparencyTwice (a : App) (a1 a2 : Nat) (w : Win) : Win :=
  let w1 := runOp w (a.SetTransparency a1 w)
  runOp w1 (a.SetTransparency a2 w1)

-- Bit-level helper lemmas.

theorem andNot_testBit (a b i : Nat) :
    (andNot a b).testBit i = (a.testBit i && !b.testBit i) := by
  simp only [andNot, Nat.testBit_xor, Nat.testBit_land]
  cases a.testBit i <;> cases b.testBit i <;> rfl

theorem andNot_lor (a b : Nat) : andNot a b ||| b = a ||| b := by
  apply Nat.eq_of_testBit_eq
  intro i
  simp only [Nat.testBit_lor, andNot_testBit]
  cases a.testBit i <;> cases b.testBit i <;> rfl

theorem lor_eq_self_of_land (a b : Nat) (h : b &&& a = b) : a ||| b = a := by
  apply Nat.eq_of_testBit_eq
  intro i
  have hi : (b.testBit i && a.testBit i) = b.testBit i := by
    rw [← Nat.testBit_land, h]
  rw [Nat.testBit_lor]
  cases hb : b.testBit i
  · simp
  · rw [hb] at hi
    simp at hi
    simp [hi]

theorem lor_land_self (a b : Nat) : (a ||| b) &&& b = b := by
  apply Nat.eq_of_testBit_eq
  intro i
  simp only [Nat.testBit_land, Nat.testBit_lor]
  cases a.testBit i <;> cases b.testBit i <;> rfl

def winZero : Win := { style := 0, exStyle := 0, alpha := none }

/-- C6 counterexample: the claim says the `RemoveBorders`/`RestoreBorders`
round trip restores the exact original style for EVERY initial bitmask.
False: starting from style 0 (no border bits set), `RestoreBorders`
unconditionally ORs all six border bits in, so the final style is
`borderStyleBits`, not 0. -/
theorem borders_roundtrip_fails :
    ¬ (removeThenRestore appSome winZero).style = winZero.style := by decide

/-- C6 (amended): the round trip yields the original style with all six
border bits forced on — `style_after = style_before ||| borderStyleBits` —
and therefore equals the original style exactly when the original style
already contained every bit of `borderStyleBits`. -/
theorem borders_roundtrip_lor (w : Win) :
    (removeThenRestore appSome w).style = w.style ||| borderStyleBits ∧
    (borderStyleBits &&& w.style = borderStyleBits →
      (removeThenRestore appSome w).style = w.style) := by
  have h1 : (removeThenRestore appSome w).style = w.style ||| borderStyleBits := by
    show andNot w.style borderStyleBits ||| borderStyleBits = w.style ||| borderStyleBits
    exact andNot_lor _ _
  refine ⟨h1, fun h => ?_⟩
  rw [h1]
  exact lor_eq_self_of_land _ _ h

def winBordered : Win := { style := borderStyleBits, exStyle := 0, alpha := none }

/-- Witness for C6 at a window whose style already has all border bits. -/
theorem borders_roundtrip_lor_witness :
    (removeThenRestore appSome winBordered).style = winBordered.style :=
  (borders_roundtrip_lor winBordered).2 (by decide)

def isSetWindowLong : NativeCall → Bool
  | .setWindowLong _ _ => true
  | _ => false

/-- C7 counterexample: the claim says the border operations' style WRITE is
marshaled through the deferred-dispatch primitive.  False: in
`RemoveBorders` the `SetWindowLong` write is issued inline on the caller's
thread. -/
theorem border_write_not_dispatched :
    ¬ (∀ c ∈ (appSome.RemoveBorders winZero).calls,
        isSetWindowLong c.1 = true → c.2 = ExecCtx.dispatched) := by decide

/-- C7 (amended): in both border operations the style read AND the style
write run inline on the caller's thread; only the redraw (`ShowWindow`) is
queued through the deferred-dispatch primitive. -/
theorem border_write_inline (w : Win) :
    (appSome.RemoveBorders w).calls =
      [(.getWindowLong gwlStyle, .inline),
       (.setWindowLong gwlStyle (andNot w.style borderStyleBits), .inline),
       (.showWindowCmd SW_SHOW, .dispatched)] ∧
    (appSome.RestoreBorders w).calls =
      [(.getWindowLong gwlStyle, .inline),
       (.setWindowLong gwlStyle (w.style ||| borderStyleBits), .inline),
       (.showWindowCmd SW_SHOW, .dispatched)] :=
  ⟨rfl, rfl⟩

/-- C8 counterexample: the claim says every window-manipulation operation on
a nil surface is a LOGGED no-op that never escalates the error.  False:
`RemoveBorders` returns silently without logging, and
`SetBackgroundTransparent` escalates by returning an error value. -/
theorem nil_surface_not_all_logged :
    ¬ ((appNone.RemoveBorders winZero).logged = true ∧
       (appNone.SetBackgroundTransparent winZero).err = none) := by decide

/-- C8 (amended): with a nil rendering surface every window-manipulation
operation performs no native call and leaves the window state unchanged (a
total function — no crash), but only `SetTransparency`, `SetPosition` and
`Navigate` log the condition; `RemoveBorders`, `RestoreBorders`, `Maximize`,
`Minimize`, `Restore` and `ShowWindow` are silent no-ops; and
`SetBackgroundTransparent` returns an error to the caller instead of
logging. -/
theorem nil_surface_noop (w : Win) (x y : Int) (alphaVal : Nat) (url : String) :
    ((appNone.SetTransparency alphaVal w).calls = [] ∧
      (appNone.SetTransparency alphaVal w).logged = true ∧
      (appNone.SetTransparency alphaVal w).err = none ∧
      runOp w (appNone.SetTransparency alphaVal w) = w) ∧
    ((appNone.SetBackgroundTransparent w).calls = [] ∧
      (appNone.SetBackgroundTransparent w).logged = false ∧
      (appNone.SetBackgroundTransparent w).err =
        some "Webview not initialized, cannot set transparent background" ∧
      runOp w (appNone.SetBackgroundTransparent w) = w) ∧
    ((appNone.SetPosition x y).calls = [] ∧
      (appNone.SetPosition x y).logged = true ∧
      (appNone.SetPosition x y).err = none ∧
      runOp w (appNone.SetPosition x y) = w) ∧
    ((appNone.RemoveBorders w).calls = [] ∧
      (appNone.RemoveBorders w).logged = false ∧
      (appNone.RemoveBorders w).err = none ∧
      runOp w (appNone.RemoveBorders w) = w) ∧
    ((appNone.RestoreBorders w).calls = [] ∧
      (appNone.RestoreBorders w).logged = false ∧
      (appNone.RestoreBorders w).err = none ∧
      runOp w (appNone.RestoreBorders w) = w) ∧
    ((appNone.Maximize).calls = [] ∧ (appNone.Maximize).logged = false ∧
      (appNone.Maximize).err = none ∧ runOp w appNone.Maximize = w) ∧
    ((appNone.Minimize).calls = [] ∧ (appNone.Minimize).logged = false ∧
      (appNone.Minimize).err = none ∧ runOp w appNone.Minimize = w) ∧
    ((appNone.Restore).calls = [] ∧ (appNone.Restore).logged = false ∧
      (appNone.Restore).err = none ∧ runOp w appNone.Restore = w) ∧
    ((appNone.ShowWindow).calls = [] ∧ (appNone.ShowWindow).logged = false ∧
      (appNone.ShowWindow).err = none ∧ runOp w appNone.ShowWindow = w) ∧
    ((appNone.Navigate url).calls = [] ∧ (appNone.Navigate url).logged = true ∧
      (appNone.Navigate url).err = none ∧ runOp w (appNone.Navigate url) = w) :=
  ⟨⟨rfl, rfl, rfl, rfl⟩, ⟨rfl, rfl, rfl, rfl⟩, ⟨rfl, rfl, rfl, rfl⟩,
   ⟨rfl, rfl, rfl, rfl⟩, ⟨rfl, rfl, rfl, rfl⟩, ⟨rfl, rfl, rfl, rfl⟩,
   ⟨rfl, rfl, rfl, rfl⟩, ⟨rfl, rfl, rfl, rfl⟩, ⟨rfl, rfl, rfl, rfl⟩,
   ⟨rfl, rfl, rfl, rfl⟩⟩

/-- C9: `SetTransparency(0)` then `SetTransparency(255)` leaves the window
fully opaque (alpha attribute 255) with the `WS_EX_LAYERED` bit still set in
the extended style, for every initial window state. -/
theorem setTransparency_opaque_layered (w : Win) :
    (setTransparencyTwice appSome 0 255 w).alpha = some 255 ∧
    (setTransparencyTwice appSome 0 255 w).exStyle &&& WS_EX_LAYERED = WS_EX_LAYERED := by
  constructor
  · rfl
  · show ((w.exStyle ||| WS_EX_LAYERED) ||| WS_EX_LAYERED) &&& WS_EX_LAYERED = WS_EX_LAYERED
    exact lor_land_self _ _

/-- C10: `GetScreenSize` and `GetVirtualScreenInfo` never inspect the
rendering surface: for every `App` (nil surface included) they issue the
native metrics queries and return the populated result — identical to their
behaviour on the nil-surface app. -/
theorem metrics_unguarded (a : App) (metrics : Nat → Int) :
    a.GetScreenSize metrics =
      ({ Width := metrics SM_CXSCREEN, Height := metrics SM_CYSCREEN },
       [(.getSystemMetricsCall SM_CXSCREEN, .inline),
        (.getSystemMetricsCall SM_CYSCREEN, .inline)]) ∧
    a.GetScreenSize metrics = appNone.GetScreenSize metrics ∧
    a.GetVirtualScreenInfo metrics =
      ({ Width := metrics SM_CXVIRTUALSCREEN, Height := metrics SM_CYVIRTUALSCREEN,
         X := metrics SM_XVIRTUALSCREEN, Y := metrics SM_YVIRTUALSCREEN },
       [(.getSystemMetricsCall SM_CXVIRTUALSCREEN, .inline),
        (.getSystemMetricsCall SM_CYVIRTUALSCREEN, .inline),
        (.getSystemMetricsCall SM_XVIRTUALSCREEN, .inline),
        (.getSystemMetricsCall SM_YVIRTUALSCREEN, .inline)]) ∧
    a.GetVirtualScreenInfo metrics = appNone.GetVirtualScreenInfo metrics :=
  ⟨rfl, rfl, rfl, rfl⟩

/-!
Lifecycle model: `App.Run` (glide.go lines 406–420) and `App.Terminate`
(lines 422–427), plus the `quit` channel created by `New` (line 375).
-/

/-- The state relevant to `Terminate`: whether the `quit` channel has been
closed, and the rendering surface.  After `New` the surface is always
present (`New` aborts the process when webview creation fails). -/
structure LifeState where
  quitClosed : Bool
  webviewPresent : Bool
  webviewTerminated : Bool
  deriving DecidableEq, Repr

/-- Go `close(ch)` on an unbuffered signal channel: closing an already
closed channel panics, modelled as `none`. -/
def closeChan (alreadyClosed : Bool) : Option Unit :=
  if alreadyClosed then none else some ()

/-- glide.go `Terminate` (lines 422–427): `close(a.quit)` with no idempotency
guard, then `a.webview.Terminate()` when the webview is non-nil.  `Exit`
(lines 369–371) and the tray's `onExit` handler both funnel into this
function.  A panic propagates as `none`. -/
def Terminate (s : LifeState) : Option LifeState :=
  match closeChan s.quitClosed with
  | none => none
  | some _ =>
      some { quitClosed := true,
             webviewPresent := s.webviewPresent,
             webviewTerminated := s.webviewTerminated || s.webviewPresent }

/-- The controller state right after `New` returns. -/
def newApp : LifeState :=
  { quitClosed := false, webviewPresent := true, webviewTerminated := false }

/-- C3: the claim says calling `Terminate()` more than once must not panic.
The code has no guard: the first call succeeds and closes `quit`, and the
second call executes `close` on the already-closed channel, which panics the
process.  (The spec itself flags the missing idempotency guard as a gap.) -/
theorem terminate_twice_close_panics :
    (Terminate newApp).isSome = true ∧ (Terminate newApp).bind Terminate = none := by
  decide

/-!
Interleaving model for `App.Run` with a tray manager (glide.go 406–420):

  main thread:   0 ─ wg.Add(1); go tray ─→ 1 ─ webview.Run() returns ─→ 2
                   ─ wg.Wait() returns (needs counter 0) ─→ 3 (Run returns)
  tray context:  0 ─ t.run() body returns ─→ 1 ─ deferred wg.Done() ─→ 2

The tray context is the goroutine spawned by `Run` whose body is
`defer wg.Done(); a.tray.run()`.
-/

structure RunState where
  mainPc : Nat
  trayPc : Nat
  traySpawned : Bool
  wgCount : Nat
  deriving DecidableEq, Repr

/-- One scheduler step of the `Run` interleaving model. -/
inductive RunStep : RunState → RunState → Prop where
  | spawnTray (s : RunState) : s.mainPc = 0 →
      RunStep s { s with mainPc := 1, traySpawned := true, wgCount := s.wgCount + 1 }
  | webviewRunReturns (s : RunState) : s.mainPc = 1 →
      RunStep s { s with mainPc := 2 }
  | wgWaitReturns (s : RunState) : s.mainPc = 2 → s.wgCount = 0 →
      RunStep s { s with mainPc := 3 }
  | trayRunReturns (s : RunState) : s.traySpawned = true → s.trayPc = 0 →
      RunStep s { s with trayPc := 1 }
  | wgDone (s : RunState) : s.traySpawned = true → s.trayPc = 1 →
      RunStep s { s with trayPc := 2, wgCount := s.wgCount - 1 }

def runInit : RunState := { mainPc := 0, trayPc := 0, traySpawned := false, wgCount := 0 }

inductive RunReachable : RunState → Prop where
  | init : RunReachable runInit
  | step {s s' : RunState} : RunReachable s → RunStep s s' → RunReachable s'

/-- Inductive invariant of the `Run` interleaving model. -/
def RunInv (s : RunState) : Prop :=
  (1 ≤ s.mainPc ↔ s.traySpawned = true) ∧
  (s.traySpawned = false → s.trayPc = 0 ∧ s.wgCount = 0) ∧
  (s.traySpawned = true → s.wgCount = if 2 ≤ s.trayPc then 0 else 1) ∧
  (s.mainPc = 3 → s.wgCount = 0) ∧
  s.trayPc ≤ 2

theorem runInv_step {s s' : RunState} (hs : RunStep s s') (hi : RunInv s) : RunInv s' := by
  obtain ⟨i1, i2, i3, i4, i5⟩ := hi
  cases hs with
  | spawnTray ht =>
      have hsp : s.traySpawned = false := by
        cases hb : s.traySpawned
        · rfl
        · have h1 := i1.mpr hb
          omega
      obtain ⟨hp0, hc0⟩ := i2 hsp
      refine ⟨⟨fun _ => rfl, fun _ => ?_⟩, fun h => ?_, fun _ => ?_, fun h => ?_, ?_⟩
      · show (1 : Nat) ≤ 1
        exact le_rfl
      · exact absurd (show (true : Bool) = false from h) (by decide)
      · show s.wgCount + 1 = if 2 ≤ s.trayPc then 0 else 1
        rw [hp0, hc0]
        decide
      · have h3 : (1 : Nat) = 3 := h
        omega
      · show s.trayPc ≤ 2
        exact i5
  | webviewRunReturns ht =>
      refine ⟨⟨fun _ => i1.mp (by omega), fun _ => ?_⟩, fun h => i2 h, fun h => i3 h,
              fun h => ?_, i5⟩
      · show (1 : Nat) ≤ 2
        omega
      · have h3 : (2 : Nat) = 3 := h
        omega
  | wgWaitReturns ht hc =>
      exact ⟨⟨fun _ => i1.mp (by omega), fun _ => show (1 : Nat) ≤ 3 by omega⟩,
             fun h => i2 h, fun h => i3 h, fun _ => hc, i5⟩
  | trayRunReturns hb hp =>
      refine ⟨i1, fun h => ?_, fun _ => ?_, fun h => i4 h, ?_⟩
      · have h2 : s.traySpawned = false := h
        rw [hb] at h2
        exact Bool.noConfusion h2
      · show s.wgCount = if 2 ≤ (1 : Nat) then 0 else 1
        rw [if_neg (by omega)]
        have h3 := i3 hb
        rw [hp, if_neg (by omega)] at h3
        exact h3
      · show (1 : Nat) ≤ 2
        omega
  | wgDone hb hp =>
      refine ⟨i1, fun h => ?_, fun _ => ?_, fun h => ?_, ?_⟩
      · have h2 : s.traySpawned = false := h
        rw [hb] at h2
        exact Bool.noConfusion h2
      · show s.wgCount - 1 = if 2 ≤ (2 : Nat) then 0 else 1
        rw [if_pos (by omega)]
        have h3 := i3 hb
        rw [hp, if_neg (by omega)] at h3
        omega
      · show s.wgCount - 1 = 0
        have h3 := i3 hb
        rw [hp, if_neg (by omega)] at h3
        omega
      · show (2 : Nat) ≤ 2
        exact le_rfl

theorem runInv_reachable (s : RunState) (h : RunReachable s) : RunInv s := by
  induction h with
  | init =>
      refine ⟨?_, fun _ => ⟨rfl, rfl⟩, fun h => absurd (show (false : Bool) = true from h) (by decide),
              fun _ => rfl, ?_⟩
      · show ((1 : Nat) ≤ 0 ↔ (false : Bool) = true)
        decide
      · show (0 : Nat) ≤ 2
        decide
  | step _ hs ih => exact runInv_step hs ih

/-- C2: when a tray manager exists, `Run()` returns only after the tray's
execution context (the goroutine spawned by `Run` that runs `t.run()` and
then the deferred `wg.Done()`) has finished: in every reachable state of the
interleaving model in which `Run` has returned (`mainPc = 3`), the tray
goroutine has completed (`trayPc = 2`).  The `wg.Wait()` after
`webview.Run()` is what forces this. -/
theorem run_joins_tray (s : RunState) (hr : RunReachable s) (hm : s.mainPc = 3) :
    s.trayPc = 2 := by
  obtain ⟨i1, i2, i3, i4, i5⟩ := runInv_reachable s hr
  have hsp : s.traySpawned = true := i1.mp (by omega)
  have hw : s.wgCount = 0 := i4 hm
  have h3 := i3 hsp
  by_cases hle : 2 ≤ s.trayPc
  · omega
  · rw [if_neg hle] at h3
    omega

def runFinal : RunState := { mainPc := 3, trayPc := 2, traySpawned := true, wgCount := 0 }

/-- Witness for C2: a concrete complete interleaving — spawn the tray, the
webview run-loop returns, the tray body returns, `wg.Done()`, `wg.Wait()`
returns — reaching `runFinal`, at which the theorem applies. -/
theorem run_joins_tray_witness : runFinal.trayPc = 2 := by
  refine run_joins_tray runFinal ?_ rfl
  have h0 : RunReachable runInit := RunReachable.init
  have h1 : RunReachable ⟨1, 0, true, 1⟩ := h0.step (RunStep.spawnTray runInit rfl)
  have h2 : RunReachable ⟨2, 0, true, 1⟩ := h1.step (RunStep.webviewRunReturns ⟨1, 0, true, 1⟩ rfl)
  have h3 : RunReachable ⟨2, 1, true, 1⟩ := h2.step (RunStep.trayRunReturns ⟨2, 0, true, 1⟩ rfl rfl)
  have h4 : RunReachable ⟨2, 2, true, 0⟩ := h3.step (RunStep.wgDone ⟨2, 1, true, 1⟩ rfl rfl)
  exact h4.step (RunStep.wgWaitReturns ⟨2, 2, true, 0⟩ rfl rfl)

/-!
Tray Menu Manager model (the tray source file: `trayManager`, lines 55–173).

`MenuItem` mirrors the config struct (handlers carry an identity `Nat` so
that "which handler fires" is observable; `none` models a nil `Handler`).
`TrayState` mirrors `trayManager`'s mutable state plus an observable event
trace.  Go's `sync.Mutex` is NOT re-entrant: `Lock()` on a mutex already
held by the same goroutine blocks that goroutine forever.  All calls inside
`onReady` run on the single systray goroutine, so a nested `Lock()` there is
modelled as `none` (stuck). -/

structure MenuItem where
  Title : String
  Tooltip : String
  Disabled : Bool
  Checked : Bool
  Handler : Option Nat
  Items : List MenuItem
  deriving Repr

structure TrayConfig where
  IconID : Nat
  Title : String
  Tooltip : String
  MenuItems : List MenuItem
  hasOnReady : Bool
  hasOnExit : Bool
  deriving Repr

/-- Observable actions of the tray manager, in execution order. -/
inductive TrayEvent where
  | setTitle (t : String)
  | setTooltip (t : String)
  | realizedItem (title : String)
  | realizedSubItem (title : String)
  | closedReadiness
  | calledOnReady
  | calledOnExit
  deriving DecidableEq, Repr

/-- State of a `trayManager`.  `inited` is the source field `initialized`;
`readyChClosed` records whether the one-shot channel `initializedCh` has
been closed.  `nativeItems` records each native (sub)item created via
`systray.AddMenuItem` / `AddSubMenuItem` as
(channel id, title, tooltip, disabled, checked); `menuItems` is the
`t.menuItems` slice of top-level native handles (their ids); `listeners` is
one entry per click-listener goroutine: (the `ClickedCh` channel id it
consumes, the handler it invokes). -/
structure TrayState where
  pendingItems : List MenuItem
  inited : Bool
  readyChClosed : Bool
  menuItems : List Nat
  nativeItems : List (Nat × String × String × Bool × Bool)
  listeners : List (Nat × Option Nat)
  nextId : Nat
  mutexHeld : Bool
  events : List TrayEvent
  deriving Repr

/-- `newTrayManager` (tray file lines 66–76): fresh manager state. -/
def initTray : TrayState :=
  { pendingItems := [], inited := false, readyChClosed := false, menuItems := [],
    nativeItems := [], listeners := [], nextId := 0, mutexHeld := false, events := [] }

/-- Body of the sub-item loop in `addMenuItem` (tray file lines 150–165):
`m.AddSubMenuItem`, the disabled/checked flags, and one listener goroutine
whose item is passed BY VALUE (`go func(si MenuItem){...}(subItem)`), so it
is bound to this iteration's sub-item. -/
def realizeSub (s : TrayState) (si : MenuItem) : TrayState :=
  let subId := s.nextId
  { s with nextId := subId + 1,
           nativeItems := s.nativeItems ++ [(subId, si.Title, si.Tooltip, si.Disabled, si.Checked)],
           listeners := s.listeners ++ [(subId, si.Handler)],
           events := s.events ++ [TrayEvent.realizedSubItem si.Title] }

/-- The top-of-function body of `trayManager.addMenuItem` (tray file lines
131–148): `systray.AddMenuItem`, append the handle to `t.menuItems`, apply
the disabled/checked flags, and start the top-level listener goroutine. -/
def addMenuItemTop (item : MenuItem) (s : TrayState) : TrayState :=
  { s with nextId := s.nextId + 1,
           menuItems := s.menuItems ++ [s.nextId],
           nativeItems := s.nativeItems ++
             [(s.nextId, item.Title, item.Tooltip, item.Disabled, item.Checked)],
           listeners := s.listeners ++ [(s.nextId, item.Handler)],
           events := s.events ++ [TrayEvent.realizedItem item.Title] }

/-- `trayManager.addMenuItem` (lower-case, tray file lines 130–166): create
the native item and its listener goroutine, then loop over `item.Items`
once — there is NO recursion into deeper levels (`subItem.Items` is never
read). -/
def addMenuItem (item : MenuItem) (s : TrayState) : TrayState :=
  item.Items.foldl realizeSub (addMenuItemTop item s)

/-- `trayManager.AddMenuItem` (exported, tray file lines 119–128):
`t.itemMutex.Lock()` first — `none` when the same goroutine already holds
the mutex (Go `sync.Mutex` is not re-entrant) — then either realize
immediately (initialized) or append to the pending queue. -/
def AddMenuItem (item : MenuItem) (s : TrayState) : Option TrayState :=
  if s.mutexHeld then none
  else if s.inited then
    let s2 := addMenuItem item { s with mutexHeld := true }
    some { s2 with mutexHeld := false }
  else
    some { s with pendingItems := s.pendingItems ++ [item] }

/-- `trayManager.buildMenu` (tray file lines 113–117): calls the LOCKING
`AddMenuItem` for each config item. -/
def buildMenu (items : List MenuItem) (s : TrayState) : Option TrayState :=
  match items with
  | [] => some s
  | i :: rest => (AddMenuItem i s).bind (buildMenu rest)

/-- The pending-queue drain loop of `onReady` (tray file lines 99–101):
calls the non-locking `addMenuItem` on each queued item, in order. -/
def drainPending (items : List MenuItem) (s : TrayState) : TrayState :=
  items.foldl (fun acc i => addMenuItem i acc) s

/-- The `systray.SetTitle` / `systray.SetTooltip` steps at the top of
`onReady` (tray file lines 88–93). -/
def setTitleTooltip (cfg : TrayConfig) (s : TrayState) : TrayState :=
  let s2 := if cfg.Title ≠ "" then { s with events := s.events ++ [TrayEvent.setTitle cfg.Title] } else s
  if cfg.Tooltip ≠ "" then { s2 with events := s2.events ++ [TrayEvent.setTooltip cfg.Tooltip] } else s2

/-- The steps of `onReady` after the pending-queue drain (tray file lines
102–110): clear the queue, set `initialized`, close `initializedCh`, invoke
the user's `OnReady` if present, release the mutex (the deferred Unlock). -/
def finishReadyAux (cfg : TrayConfig) (s5 : TrayState) : TrayState :=
  { s5 with pendingItems := [], inited := true, readyChClosed := true,
            mutexHeld := false,
            events := (s5.events ++ [TrayEvent.closedReadiness])
              ++ (if cfg.hasOnReady then [TrayEvent.calledOnReady] else []) }

/-- The tail of `onReady` after the config menu build (tray file lines
99–110): drain the pending queue via the non-locking `addMenuItem`, then the
readiness transition. -/
def finishReady (cfg : TrayConfig) (s4 : TrayState) : TrayState :=
  finishReadyAux cfg (drainPending s4.pendingItems s4)

/-- `trayManager.onReady` (tray file lines 83–111), run on the systray
goroutine: take the mutex, set title/tooltip, build the config menu through
the LOCKING `AddMenuItem` (the deadlock: the mutex is already held), then
drain, mark initialized, close the readiness channel, and fire the user
callback.  A nested same-goroutine `Lock()` blocks forever: `none`. -/
def onReady (cfg : TrayConfig) (s : TrayState) : Option TrayState :=
  if s.mutexHeld then none
  else
    match buildMenu cfg.MenuItems (setTitleTooltip cfg { s with mutexHeld := true }) with
    | none => none
    | some s4 => some (finishReady cfg s4)

/-- `trayManager.onExit` (tray file lines 168–173): the user `OnExit`
callback, then `t.app.Terminate()` (the `Terminate` model above). -/
def onExit (cfg : TrayConfig) (s : TrayState) : TrayState :=
  if cfg.hasOnExit then { s with events := s.events ++ [TrayEvent.calledOnExit] } else s

/-- The handler invocations triggered by ONE native click notification on
channel `c`: every listener goroutine consuming channel `c` runs its item's
handler once (`for range m.ClickedCh { item.Handler() }`). -/
def invokeClick (s : TrayState) (c : Nat) : List (Option Nat) :=
  (s.listeners.filter (fun p => p.1 == c)).map Prod.snd

/-- Number of items in the nested-item tree of a `MenuItem`, at every depth,
cut off below depth `fuel` (exact whenever `fuel` exceeds the tree height).
This is the quantity "N nested items" of the spec's N+1 listener claim. -/
def nestedCountItem : Nat → MenuItem → Nat
  | 0, _ => 0
  | fuel + 1, i => (i.Items.map (fun si => 1 + nestedCountItem fuel si)).sum

/-- The trace of events `addMenuItem` emits for one item: the top-level
native item, then one native sub-item per DIRECT child. -/
def itemEvents (i : MenuItem) : List TrayEvent :=
  TrayEvent.realizedItem i.Title :: i.Items.map (fun si => TrayEvent.realizedSubItem si.Title)

/-- The title/tooltip events emitted at the top of `onReady`. -/
def titleEvents (cfg : TrayConfig) : List TrayEvent :=
  (if cfg.Title ≠ "" then [TrayEvent.setTitle cfg.Title] else []) ++
  (if cfg.Tooltip ≠ "" then [TrayEvent.setTooltip cfg.Tooltip] else [])

def isRealizedItemEvent : TrayEvent → Bool
  | .realizedItem _ => true
  | _ => false

-- Characterization lemmas for the tray model.

theorem foldl_realizeSub_spec (items : List MenuItem) (t : TrayState) :
    (items.foldl realizeSub t).listeners
        = t.listeners ++ (items.enumFrom t.nextId).map (fun p => (p.1, p.2.Handler)) ∧
    (items.foldl realizeSub t).nextId = t.nextId + items.length ∧
    (items.foldl realizeSub t).events
        = t.events ++ items.map (fun si => TrayEvent.realizedSubItem si.Title) ∧
    (items.foldl realizeSub t).pendingItems = t.pendingItems ∧
    (items.foldl realizeSub t).inited = t.inited ∧
    (items.foldl realizeSub t).readyChClosed = t.readyChClosed ∧
    (items.foldl realizeSub t).mutexHeld = t.mutexHeld := by
  induction items generalizing t with
  | nil => simp
  | cons i is ih =>
      obtain ⟨hl, hn, he, hp, hi2, hr, hm⟩ := ih (realizeSub t i)
      simp only [List.foldl_cons]
      refine ⟨?_, ?_, ?_, ?_, ?_, ?_, ?_⟩
      · rw [hl]
        simp [realizeSub, List.enumFrom]
      · rw [hn]
        simp [realizeSub]
        omega
      · rw [he]
        simp [realizeSub]
      · rw [hp]
        rfl
      · rw [hi2]
        rfl
      · rw [hr]
        rfl
      · rw [hm]
        rfl

theorem addMenuItem_spec (item : MenuItem) (t : TrayState) :
    (addMenuItem item t).listeners
        = t.listeners ++ (t.nextId, item.Handler)
            :: (item.Items.enumFrom (t.nextId + 1)).map (fun p => (p.1, p.2.Handler)) ∧
    (addMenuItem item t).nextId = t.nextId + 1 + item.Items.length ∧
    (addMenuItem item t).events = t.events ++ itemEvents item ∧
    (addMenuItem item t).pendingItems = t.pendingItems ∧
    (addMenuItem item t).inited = t.inited ∧
    (addMenuItem item t).readyChClosed = t.readyChClosed ∧
    (addMenuItem item t).mutexHeld = t.mutexHeld := by
  obtain ⟨hl, hn, he, hp, hi2, hr, hm⟩ := foldl_realizeSub_spec item.Items (addMenuItemTop item t)
  unfold addMenuItem
  refine ⟨?_, ?_, ?_, ?_, ?_, ?_, ?_⟩
  · rw [hl]
    simp [addMenuItemTop]
  · rw [hn]
    simp [addMenuItemTop]
  · rw [he]
    simp [addMenuItemTop, itemEvents]
  · rw [hp]
    rfl
  · rw [hi2]
    rfl
  · rw [hr]
    rfl
  · rw [hm]
    rfl

theorem drainPending_spec (items : List MenuItem) (t : TrayState) :
    (drainPending items t).events = t.events ++ (items.map itemEvents).flatten ∧
    (drainPending items t).readyChClosed = t.readyChClosed ∧
    (drainPending items t).inited = t.inited ∧
    (drainPending items t).mutexHeld = t.mutexHeld := by
  induction items generalizing t with
  | nil => simp [drainPending]
  | cons i is ih =>
      obtain ⟨he, hr, hi2, hm⟩ := ih (addMenuItem i t)
      obtain ⟨_, _, he2, _, hin2, hr2, hm2⟩ := addMenuItem_spec i t
      refine ⟨?_, ?_, ?_, ?_⟩
      · show (drainPending is (addMenuItem i t)).events = _
        rw [he, he2]
        simp
      · show (drainPending is (addMenuItem i t)).readyChClosed = _
        rw [hr, hr2]
      · show (drainPending is (addMenuItem i t)).inited = _
        rw [hi2, hin2]
      · show (drainPending is (addMenuItem i t)).mutexHeld = _
        rw [hm, hm2]

theorem itemEvents_not_close (i : MenuItem) : TrayEvent.closedReadiness ∉ itemEvents i := by
  simp [itemEvents]

theorem itemEvents_not_onReady (i : MenuItem) : TrayEvent.calledOnReady ∉ itemEvents i := by
  simp [itemEvents]

theorem filter_realizedSub_nil (l : List MenuItem) :
    (l.map (fun si => TrayEvent.realizedSubItem si.Title)).filter isRealizedItemEvent = [] := by
  induction l with
  | nil => rfl
  | cons a l ih => simp [List.filter_cons, isRealizedItemEvent, ih]

theorem itemEvents_filter (i : MenuItem) :
    (itemEvents i).filter isRealizedItemEvent = [TrayEvent.realizedItem i.Title] := by
  simp [itemEvents, List.filter_cons, isRealizedItemEvent, filter_realizedSub_nil]

theorem join_itemEvents_not_close (items : List MenuItem) :
    TrayEvent.closedReadiness ∉ (items.map itemEvents).flatten := by
  intro h
  rw [List.mem_flatten] at h
  obtain ⟨l, hl, hel⟩ := h
  rw [List.mem_map] at hl
  obtain ⟨i, -, rfl⟩ := hl
  exact itemEvents_not_close i hel

theorem join_itemEvents_not_onReady (items : List MenuItem) :
    TrayEvent.calledOnReady ∉ (items.map itemEvents).flatten := by
  intro h
  rw [List.mem_flatten] at h
  obtain ⟨l, hl, hel⟩ := h
  rw [List.mem_map] at hl
  obtain ⟨i, -, rfl⟩ := hl
  exact itemEvents_not_onReady i hel

theorem join_itemEvents_filter (items : List MenuItem) :
    ((items.map itemEvents).flatten).filter isRealizedItemEvent
      = items.map (fun i => TrayEvent.realizedItem i.Title) := by
  induction items with
  | nil => rfl
  | cons i is ih => simp [List.filter_append, itemEvents_filter, ih]

theorem titleEvents_not_close (cfg : TrayConfig) :
    TrayEvent.closedReadiness ∉ titleEvents cfg := by
  unfold titleEvents
  by_cases h1 : cfg.Title ≠ "" <;> by_cases h2 : cfg.Tooltip ≠ "" <;> simp [h1, h2]

theorem titleEvents_not_onReady (cfg : TrayConfig) :
    TrayEvent.calledOnReady ∉ titleEvents cfg := by
  unfold titleEvents
  by_cases h1 : cfg.Title ≠ "" <;> by_cases h2 : cfg.Tooltip ≠ "" <;> simp [h1, h2]

theorem titleEvents_filter (cfg : TrayConfig) :
    (titleEvents cfg).filter isRealizedItemEvent = [] := by
  unfold titleEvents
  by_cases h1 : cfg.Title ≠ "" <;> by_cases h2 : cfg.Tooltip ≠ "" <;>
    simp [h1, h2, List.filter_cons, isRealizedItemEvent]

theorem setTitleTooltip_spec (cfg : TrayConfig) (s : TrayState) :
    (setTitleTooltip cfg s).events = s.events ++ titleEvents cfg ∧
    (setTitleTooltip cfg s).pendingItems = s.pendingItems ∧
    (setTitleTooltip cfg s).mutexHeld = s.mutexHeld ∧
    (setTitleTooltip cfg s).inited = s.inited ∧
    (setTitleTooltip cfg s).readyChClosed = s.readyChClosed := by
  unfold setTitleTooltip titleEvents
  by_cases h1 : cfg.Title ≠ "" <;> by_cases h2 : cfg.Tooltip ≠ "" <;> simp [h1, h2]

theorem finishReady_spec (cfg : TrayConfig) (s4 : TrayState) :
    (finishReady cfg s4).readyChClosed = true ∧
    (finishReady cfg s4).events
      = s4.events ++ (s4.pendingItems.map itemEvents).flatten
          ++ [TrayEvent.closedReadiness]
          ++ (if cfg.hasOnReady then [TrayEvent.calledOnReady] else []) := by
  obtain ⟨he, hr, hi2, hm⟩ := drainPending_spec s4.pendingItems s4
  unfold finishReady finishReadyAux
  refine ⟨rfl, ?_⟩
  show ((drainPending s4.pendingItems s4).events ++ [TrayEvent.closedReadiness])
      ++ (if cfg.hasOnReady then [TrayEvent.calledOnReady] else []) = _
  rw [he]

theorem buildMenu_locked (items : List MenuItem) (s : TrayState)
    (hm : s.mutexHeld = true) (hne : items ≠ []) :
    buildMenu items s = none := by
  cases items with
  | nil => exact absurd rfl hne
  | cons i rest =>
      show (AddMenuItem i s).bind (buildMenu rest) = none
      unfold AddMenuItem
      rw [if_pos hm]
      rfl

theorem AddMenuItem_no_close (item : MenuItem) (t t' : TrayState)
    (h : AddMenuItem item t = some t') :
    t'.readyChClosed = t.readyChClosed ∧
    ∃ E, t'.events = t.events ++ E ∧ TrayEvent.closedReadiness ∉ E := by
  unfold AddMenuItem at h
  by_cases hm : t.mutexHeld = true
  · rw [if_pos hm] at h
    exact Option.noConfusion h
  · rw [if_neg hm] at h
    by_cases hi : t.inited = true
    · rw [if_pos hi] at h
      injection h with h2
      subst h2
      obtain ⟨_, _, he2, _, _, hr2, _⟩ := addMenuItem_spec item { t with mutexHeld := true }
      constructor
      · show (addMenuItem item { t with mutexHeld := true }).readyChClosed = t.readyChClosed
        rw [hr2]
      · refine ⟨itemEvents item, ?_, itemEvents_not_close item⟩
        show (addMenuItem item { t with mutexHeld := true }).events = t.events ++ itemEvents item
        rw [he2]
    · rw [if_neg hi] at h
      injection h with h2
      subst h2
      exact ⟨rfl, [], by simp, by simp⟩

theorem onExit_no_close (cfg : TrayConfig) (t : TrayState) :
    (onExit cfg t).readyChClosed = t.readyChClosed ∧
    ∃ E, (onExit cfg t).events = t.events ++ E ∧ TrayEvent.closedReadiness ∉ E := by
  unfold onExit
  by_cases hx : cfg.hasOnExit = true
  · rw [if_pos hx]
    exact ⟨rfl, [TrayEvent.calledOnExit], rfl, by simp⟩
  · rw [if_neg hx]
    exact ⟨rfl, [], by simp, by simp⟩

theorem onReady_some (cfg : TrayConfig) (s s' : TrayState)
    (h : onReady cfg s = some s') :
    cfg.MenuItems = [] ∧ s.mutexHeld = false ∧
    s' = finishReady cfg (setTitleTooltip cfg { s with mutexHeld := true }) := by
  unfold onReady at h
  by_cases hm : s.mutexHeld = true
  · rw [if_pos hm] at h
    exact Option.noConfusion h
  · rw [if_neg hm] at h
    have hms : s.mutexHeld = false := by
      cases hmb : s.mutexHeld
      · rfl
      · exact absurd hmb hm
    by_cases hne : cfg.MenuItems = []
    · refine ⟨hne, hms, ?_⟩
      rw [hne] at h
      simp only [buildMenu] at h
      injection h with h2
      exact h2.symm
    · have hm2 : (setTitleTooltip cfg { s with mutexHeld := true }).mutexHeld = true :=
        ((setTitleTooltip_spec cfg { s with mutexHeld := true }).2.2.1).trans rfl
      rw [buildMenu_locked cfg.MenuItems _ hm2 hne] at h
      exact Option.noConfusion h

-- Click-listener dispatch lemmas.

theorem filter_key_eq_nil (l : List (Nat × Option Nat)) (c : Nat)
    (h : ∀ p ∈ l, p.1 ≠ c) : l.filter (fun p => p.1 == c) = [] := by
  rw [List.filter_eq_nil_iff]
  intro p hp
  simp only [beq_iff_eq]
  exact h p hp

theorem filter_key_single (l : List (Nat × Option Nat)) (c : Nat) (v : Option Nat)
    (hn : (l.map Prod.fst).Nodup) (hmem : (c, v) ∈ l) :
    l.filter (fun p => p.1 == c) = [(c, v)] := by
  induction l with
  | nil => cases hmem
  | cons p ps ih =>
      rw [List.map_cons, List.nodup_cons] at hn
      obtain ⟨hnot, hn2⟩ := hn
      rcases List.mem_cons.mp hmem with heq | hmem2
      · subst heq
        rw [List.filter_cons]
        simp only [beq_self_eq_true, if_true]
        rw [filter_key_eq_nil ps c ?_]
        intro q hq hqc
        have hq2 : q.1 ∈ ps.map Prod.fst := List.mem_map_of_mem Prod.fst hq
        rw [hqc] at hq2
        exact hnot hq2
      · have hc : c ∈ ps.map Prod.fst := List.mem_map.mpr ⟨(c, v), hmem2, rfl⟩
        have hpc : (p.1 == c) = false := by
          rw [beq_eq_false_iff_ne]
          intro hh
          exact hnot (hh ▸ hc)
        rw [List.filter_cons, hpc]
        simp only [Bool.false_eq_true, if_false]
        exact ih hn2 hmem2

theorem enumFrom_handler_mem (l : List MenuItem) (m j : Nat) (hj : j < l.length) :
    (m + j, (l.get ⟨j, hj⟩).Handler) ∈ (l.enumFrom m).map (fun p => (p.1, p.2.Handler)) := by
  induction l generalizing m j with
  | nil => simp at hj
  | cons a l ih =>
      cases j with
      | zero => simp [List.enumFrom]
      | succ j2 =>
          have hj2 : j2 < l.length := by
            simp at hj
            omega
          have hmem := ih (m + 1) j2 hj2
          simp only [List.enumFrom, List.map_cons, List.mem_cons]
          right
          have harith : m + (j2 + 1) = (m + 1) + j2 := by omega
          rw [harith]
          exact hmem

theorem enumFrom_handler_key_ge (l : List MenuItem) (m : Nat) :
    ∀ q ∈ (l.enumFrom m).map (fun p => (p.1, p.2.Handler)), m ≤ q.1 := by
  induction l generalizing m with
  | nil => simp
  | cons a l ih =>
      intro q hq
      simp only [List.enumFrom, List.map_cons, List.mem_cons] at hq
      rcases hq with rfl | hq
      · exact le_rfl
      · have := ih (m + 1) q hq
        omega

theorem enumFrom_handler_keys_nodup (l : List MenuItem) (m : Nat) :
    (((l.enumFrom m).map (fun p => (p.1, p.2.Handler))).map Prod.fst).Nodup := by
  induction l generalizing m with
  | nil => simp
  | cons a l ih =>
      simp only [List.enumFrom, List.map_cons, List.nodup_cons]
      refine ⟨?_, ih (m + 1)⟩
      intro hmem
      rw [List.mem_map] at hmem
      obtain ⟨q, hq, hq1⟩ := hmem
      have := enumFrom_handler_key_ge l (m + 1) q hq
      omega

-- Concrete menu items (the spec's §8 example scenario).

def itemDark : MenuItem :=
  { Title := "Dark", Tooltip := "", Disabled := false, Checked := false,
    Handler := some 4, Items := [] }

def itemTheme : MenuItem :=
  { Title := "Theme", Tooltip := "", Disabled := false, Checked := false,
    Handler := some 3, Items := [itemDark] }

def itemSettings : MenuItem :=
  { Title := "Settings", Tooltip := "", Disabled := false, Checked := false,
    Handler := some 2, Items := [itemTheme] }

def itemOpen : MenuItem :=
  { Title := "Open", Tooltip := "", Disabled := false, Checked := false,
    Handler := some 1, Items := [] }

def cfgExample : TrayConfig :=
  { IconID := 0, Title := "", Tooltip := "", MenuItems := [itemOpen, itemSettings],
    hasOnReady := false, hasOnExit := false }

/-- C1 (code bug): for EVERY tray configuration with at least one top-level
config menu item, the readiness transition never completes.  `onReady`
acquires `itemMutex` and then `buildMenu` calls the exported `AddMenuItem`,
which tries to acquire the same non-re-entrant `sync.Mutex` on the same
goroutine — a permanent deadlock (`none`), so no realized menu order ever
materializes; the claim says the transition completes with config items
followed by pending items. -/
theorem onReady_deadlocks (cfg : TrayConfig) (s : TrayState)
    (hne : cfg.MenuItems ≠ []) : onReady cfg s = none := by
  unfold onReady
  by_cases hm : s.mutexHeld = true
  · rw [if_pos hm]
  · rw [if_neg hm]
    have hm2 : (setTitleTooltip cfg { s with mutexHeld := true }).mutexHeld = true :=
      ((setTitleTooltip_spec cfg { s with mutexHeld := true }).2.2.1).trans rfl
    rw [buildMenu_locked cfg.MenuItems _ hm2 hne]

/-- Witness for C1: the spec's own example configuration
(Open, Settings→Theme) deadlocks from the fresh tray state. -/
theorem onReady_deadlocks_witness :
    cfgExample.MenuItems ≠ [] ∧ onReady cfgExample initTray = none :=
  ⟨List.cons_ne_nil _ _, onReady_deadlocks cfgExample initTray (List.cons_ne_nil _ _)⟩

/-- C4 counterexample: `itemSettings` has 2 items in its nested-item tree
(Theme at depth 1, Dark at depth 2), so the claim demands 2+1 = 3 listener
contexts; realization creates only 2 — `addMenuItem` never recurses into
`Theme`'s own `Items`, so `Dark` is silently dropped. -/
theorem addMenuItem_not_recursive :
    ¬ ((addMenuItem itemSettings initTray).listeners.length
        = nestedCountItem 3 itemSettings + 1) := by decide

/-- C4 (amended): realizing a `MenuItem` goes exactly ONE level deep: it
creates `1 + item.Items.length` listener contexts (one for the item, one per
DIRECT sub-item; deeper descendants are not realized), each with its own
fresh click channel, and a click notification on any of the new channels
invokes exactly that channel's own item's handler, once, never another
item's handler (the sub-item is captured by value in its goroutine). -/
theorem addMenuItem_one_level (item : MenuItem) (s : TrayState)
    (hb : ∀ p ∈ s.listeners, p.1 < s.nextId) :
    (addMenuItem item s).listeners.length = s.listeners.length + (1 + item.Items.length) ∧
    invokeClick (addMenuItem item s) s.nextId = [item.Handler] ∧
    (∀ j, (hj : j < item.Items.length) →
      invokeClick (addMenuItem item s) (s.nextId + 1 + j)
        = [(item.Items.get ⟨j, hj⟩).Handler]) := by
  obtain ⟨hl, -, -, -, -, -, -⟩ := addMenuItem_spec item s
  refine ⟨?_, ?_, ?_⟩
  · rw [hl]
    simp [List.length_append, List.length_map, List.enumFrom_length]
    omega
  · unfold invokeClick
    rw [hl, List.filter_append]
    rw [filter_key_eq_nil s.listeners s.nextId (fun p hp => Nat.ne_of_lt (hb p hp))]
    rw [List.filter_cons]
    simp only [beq_self_eq_true, if_true]
    rw [filter_key_eq_nil _ s.nextId ?_]
    · rfl
    · intro q hq
      have := enumFrom_handler_key_ge item.Items (s.nextId + 1) q hq
      omega
  · intro j hj
    unfold invokeClick
    rw [hl, List.filter_append]
    rw [filter_key_eq_nil s.listeners (s.nextId + 1 + j)
      (fun p hp => by have := hb p hp; omega)]
    rw [List.filter_cons]
    have hne : (((s.nextId, item.Handler) : Nat × Option Nat).1 == s.nextId + 1 + j) = false := by
      rw [beq_eq_false_iff_ne]
      show s.nextId ≠ s.nextId + 1 + j
      omega
    rw [hne]
    simp only [Bool.false_eq_true, if_false]
    have hmem := enumFrom_handler_mem item.Items (s.nextId + 1) j hj
    rw [filter_key_single _ (s.nextId + 1 + j) ((item.Items.get ⟨j, hj⟩).Handler)
      (enumFrom_handler_keys_nodup item.Items (s.nextId + 1)) hmem]
    rfl

/-- Witness for C4: realizing `itemSettings` from the fresh tray state; a
click on channel 0 (the top-level item's channel) invokes exactly its
handler. -/
theorem addMenuItem_one_level_witness :
    invokeClick (addMenuItem itemSettings initTray) 0 = [some 2] := by
  have h := addMenuItem_one_level itemSettings initTray
    (by intro p hp; simp [initTray] at hp)
  exact h.2.1

/-- C5 counterexample: the claim says the readiness signal of EVERY tray
manager is closed exactly once.  For a tray configured with any menu item
(here the spec's own example config) `onReady` deadlocks before
`close(initializedCh)` is reached, so the readiness signal is closed zero
times and every `run()` waiter blocks forever. -/
theorem readiness_never_closed :
    onReady cfgExample initTray = none ∧ initTray.readyChClosed = false :=
  ⟨rfl, rfl⟩

/-- C5 (amended): whenever the `onReady` handler runs to completion, the
readiness signal is closed exactly once, and only inside `onReady`: the
handler's appended event trace contains exactly one `closedReadiness`,
placed after all drained pending-item realizations (which appear in
submission order) and before the user `OnReady` callback; `AddMenuItem` and
`onExit` never close the signal nor emit a close event; and after completion
`readyChClosed = true`, so every waiter's receive on the closed channel
returns (all waiters unblock). -/
theorem readiness_closed_once (cfg : TrayConfig) (s s' : TrayState)
    (h : onReady cfg s = some s') :
    s'.readyChClosed = true ∧
    (∃ E1 E2,
      s'.events = s.events ++ E1 ++ [TrayEvent.closedReadiness] ++ E2 ∧
      TrayEvent.closedReadiness ∉ E1 ∧ TrayEvent.closedReadiness ∉ E2 ∧
      E1.filter isRealizedItemEvent
        = s.pendingItems.map (fun i => TrayEvent.realizedItem i.Title) ∧
      TrayEvent.calledOnReady ∉ E1 ∧
      (∀ e ∈ E2, e = TrayEvent.calledOnReady)) ∧
    (∀ item t t', AddMenuItem item t = some t' →
      t'.readyChClosed = t.readyChClosed ∧
      ∃ E, t'.events = t.events ++ E ∧ TrayEvent.closedReadiness ∉ E) ∧
    (∀ t : TrayState, (onExit cfg t).readyChClosed = t.readyChClosed ∧
      ∃ E, (onExit cfg t).events = t.events ++ E ∧ TrayEvent.closedReadiness ∉ E) := by
  obtain ⟨hnil, hms, hs'⟩ := onReady_some cfg s s' h
  subst hs'
  obtain ⟨hfr, hfe⟩ := finishReady_spec cfg (setTitleTooltip cfg { s with mutexHeld := true })
  obtain ⟨hxe, hxp, -, -, -⟩ := setTitleTooltip_spec cfg { s with mutexHeld := true }
  have hxe2 : (setTitleTooltip cfg { s with mutexHeld := true }).events
      = s.events ++ titleEvents cfg := hxe.trans rfl
  have hxp2 : (setTitleTooltip cfg { s with mutexHeld := true }).pendingItems
      = s.pendingItems := hxp.trans rfl
  refine ⟨hfr, ?_, fun item t t' ht => AddMenuItem_no_close item t t' ht,
          fun t => onExit_no_close cfg t⟩
  refine ⟨titleEvents cfg ++ (s.pendingItems.map itemEvents).flatten,
          (if cfg.hasOnReady then [TrayEvent.calledOnReady] else []),
          ?_, ?_, ?_, ?_, ?_, ?_⟩
  · rw [hfe, hxe2, hxp2]
    simp [List.append_assoc]
  · intro hmem
    rcases List.mem_append.mp hmem with hc | hc
    · exact titleEvents_not_close cfg hc
    · exact join_itemEvents_not_close _ hc
  · by_cases hx2 : cfg.hasOnReady = true <;> simp [hx2]
  · rw [List.filter_append, titleEvents_filter, join_itemEvents_filter]
    rfl
  · intro hmem
    rcases List.mem_append.mp hmem with hc | hc
    · exact titleEvents_not_onReady cfg hc
    · exact join_itemEvents_not_onReady _ hc
  · by_cases hx2 : cfg.hasOnReady = true <;> simp [hx2]

def cfgReadyW : TrayConfig :=
  { IconID := 0, Title := "", Tooltip := "", MenuItems := [],
    hasOnReady := true, hasOnExit := false }

def trayPend : TrayState := { initTray with pendingItems := [itemOpen] }

def trayReadyW : TrayState :=
  { pendingItems := [], inited := true, readyChClosed := true, menuItems := [0],
    nativeItems := [(0, "Open", "", false, false)], listeners := [(0, some 1)],
    nextId := 1, mutexHeld := false,
    events := [TrayEvent.realizedItem "Open", TrayEvent.closedReadiness,
               TrayEvent.calledOnReady] }

/-- Witness for C5: an empty-config tray with one pending item; `onReady`
completes, reaching `trayReadyW`, whose readiness signal is closed. -/
theorem readiness_closed_once_witness : trayReadyW.readyChClosed = true :=
  (readiness_closed_once cfgReadyW trayPend trayReadyW rfl).1
